import Mathlib

/-!
Shallow embedding of the EMPATHY_AVATAR_AI repository's avatar-control logic.

The Python class `VTubeStudioClient` (src/vtube_studio_client.py) is modelled
as a pure state type `ClientState` together with functions that thread the
state explicitly.  Network interaction is modelled by (a) a `Host` oracle that
supplies the response the host would give to each request, and (b) an explicit
log of `NetSend` events recording every request written to the socket in
order.  A raised Python exception is modelled as `Outcome.error = some e`; the
state carried in the outcome is the object's state at the moment of the raise
(mutations performed before the raise are kept, exactly as in Python).

The per-turn emotion-selection logic of src/avatar_chatbot.py and
src/web_live2d_chatbot.py and the classifier of src/emotion_classifier.py are
embedded as pure functions; the external VADER sentiment analyzer is an
oracle parameter `analyzer : String → ℚ`.
-/

set_option maxRecDepth 8000

namespace AvatarSpec

/-- Python string truthiness lifted to `Option String`: `None` and `""` are
falsy; a non-empty string is returned unchanged. -/
def truthy : Option String → Option String
  | none => none
  | some s => if s = "" then none else some s

/-- Python `d.get(k)` on a string-keyed dict modelled as an association list. -/
def dictGet (m : List (String × String)) (k : String) : Option String :=
  (m.find? (fun p => p.1 == k)).map (fun p => p.2)

/-- Python `d[k] = v`: overwrite the existing binding in place, else append. -/
def dictInsert (m : List (String × String)) (k v : String) : List (String × String) :=
  if m.any (fun p => p.1 == k) then
    m.map (fun p => if p.1 == k then (k, v) else p)
  else m ++ [(k, v)]

/-- Python `str.lower()` (ASCII case folding, as used on the ASCII keys of
the emotion maps). -/
def lowerStr (s : String) : String := String.mk (s.toList.map Char.toLower)

/-- Python whitespace characters recognised by `str.strip()`. -/
def isPySpace (c : Char) : Bool :=
  c == ' ' || c == '\t' || c == '\n' || c == '\r' || c == Char.ofNat 11 || c == Char.ofNat 12

/-- Python `str.strip()`. -/
def pyStrip (s : String) : String :=
  String.mk (((s.toList.dropWhile isPySpace).reverse.dropWhile isPySpace).reverse)

/-- Python substring test `pat in s`. -/
def strContains (s pat : String) : Bool :=
  s.toList.tails.any (fun t => pat.toList.isPrefixOf t)

/-- One request written to the WebSocket, in the order the client sends it:
the token request, the authentication request (carrying the token), the
hotkey-list request, or a hotkey-trigger request (carrying its `requestID`
and the `hotkeyID` field of its `data` payload). -/
inductive NetSend where
  | tokenReq : NetSend
  | authReq : String → NetSend
  | hotkeyListReq : NetSend
  | triggerReq : String → String → NetSend
deriving DecidableEq

/-- The host's response to a `HotkeyTriggerRequest`: its `messageType`,
whether an `errorID` field is present, and its `data` payload (the part the
error message carries). -/
structure TrigResponse where
  messageType : String
  hasErrorID : Bool
  data : String
deriving DecidableEq

/-- One entry of `availableHotkeys` in the host's hotkey-list response;
a missing field is modelled as `""` (both are falsy in the Python checks). -/
structure HotkeyEntry where
  name : String
  hotkeyID : String
  type : String
deriving DecidableEq

/-- The host's response to a `HotkeysInCurrentModelRequest`. -/
structure ListResponse where
  messageType : String
  hasErrorID : Bool
  availableHotkeys : List HotkeyEntry
deriving DecidableEq

/-- The host's response to an `AuthenticationTokenRequest`;
`authenticationToken = ""` models a response with no token field. -/
structure TokenResponse where
  authenticationToken : String
deriving DecidableEq

/-- The host's response to an `AuthenticationRequest`. -/
structure AuthResponse where
  authenticated : Bool
deriving DecidableEq

/-- The exceptions `VTubeStudioClient` can raise: `apply_emotion` on a
client with no connection, the re-raised token timeout, the authentication
failure, and the host rejecting a trigger (carrying the hotkey name and the
response payload). -/
inductive VTSError where
  | notConnected : VTSError
  | authTimeout : VTSError
  | authFailed : VTSError
  | rejected : String → String → VTSError
deriving DecidableEq

/-- The host oracle: the hotkey-list response it currently gives, and the
trigger response it gives for each `hotkeyID`. -/
structure Host where
  listResp : ListResponse
  trigResp : String → TrigResponse

/-- The mutable fields of `VTubeStudioClient`: `ws` (is a connection handle
held), `auth_token`, the `emotion_hotkeys` configuration, the
`hotkey_cache`, and `_last_active_hotkey`. -/
structure ClientState where
  ws : Bool
  auth_token : Option String
  emotion_hotkeys : List (String × String)
  hotkey_cache : List (String × String)
  last_active_hotkey : Option String
deriving DecidableEq

/-- `VTubeStudioClient.__init__` (src/vtube_studio_client.py lines 11-24). -/
def initClient (auth_token : Option String)
    (emotion_hotkeys : Option (List (String × String))) : ClientState :=
  { ws := false
    auth_token := auth_token
    emotion_hotkeys := emotion_hotkeys.getD []
    hotkey_cache := []
    last_active_hotkey := none }

/-- Result of running one client method: the state after the call, the
requests sent during it in order, and the exception raised (if any). -/
structure Outcome where
  state : ClientState
  sends : List NetSend
  error : Option VTSError
deriving DecidableEq

/-- The error test of `_trigger_hotkey` line 171:
`result.get("messageType") == "APIError" or "errorID" in result`. -/
def isErrorResponse (r : TrigResponse) : Bool :=
  r.messageType == "APIError" || r.hasErrorID

/-- The caching loop of `_load_hotkeys` lines 101-108: keep only entries with
a non-empty stripped name, a truthy id, and type `"ToggleExpression"`. -/
def cacheHotkeys (cache : List (String × String)) (hks : List HotkeyEntry) :
    List (String × String) :=
  hks.foldl (fun c hk =>
    if pyStrip hk.name != "" && hk.hotkeyID != "" && hk.type == "ToggleExpression" then
      dictInsert c (pyStrip hk.name) hk.hotkeyID
    else c) cache

/-- `_load_hotkeys` (lines 81-110): send the hotkey-list request; on an
`"APIError"` message type log and return (the cache untouched), else merge
the qualifying entries into the cache.  It never raises. -/
def load_hotkeys (host : Host) (st : ClientState) : Outcome :=
  if host.listResp.messageType == "APIError" then
    { state := st, sends := [NetSend.hotkeyListReq], error := none }
  else
    { state := { st with
        hotkey_cache := cacheHotkeys st.hotkey_cache host.listResp.availableHotkeys }
      sends := [NetSend.hotkeyListReq]
      error := none }

/-- The shared cache-lookup-with-one-refresh step (`apply_emotion` lines
123-128 and `_trigger_hotkey` lines 147-151): check the cache; on a miss
refresh once and re-check. -/
def resolveOnce (host : Host) (st : ClientState) (hotkey_name : String) :
    ClientState × List NetSend × Option String :=
  match truthy (dictGet st.hotkey_cache hotkey_name) with
  | some id => (st, [], some id)
  | none =>
    let r := load_hotkeys host st
    (r.state, r.sends, truthy (dictGet r.state.hotkey_cache hotkey_name))

/-- `_trigger_hotkey` (lines 145-174): resolve the id (refreshing once if it
was not passed in and is not cached); give up silently if still unresolved;
else send the trigger request with
`requestID = "trigger_" + (emotion or hotkey_name)` and raise if the
response satisfies `isErrorResponse`. -/
def trigger_hotkey (host : Host) (st : ClientState) (hotkey_name : String)
    (hotkey_id : Option String) (emotion : Option String) : Outcome :=
  match (match truthy hotkey_id with
         | some id => (st, ([] : List NetSend), some id)
         | none => resolveOnce host st hotkey_name) with
  | (st1, s1, none) => { state := st1, sends := s1, error := none }
  | (st1, s1, some id) =>
    if isErrorResponse (host.trigResp id) then
      { state := st1
        sends := s1 ++ [NetSend.triggerReq ("trigger_" ++ (truthy emotion).getD hotkey_name) id]
        error := some (VTSError.rejected hotkey_name (host.trigResp id).data) }
    else
      { state := st1
        sends := s1 ++ [NetSend.triggerReq ("trigger_" ++ (truthy emotion).getD hotkey_name) id]
        error := none }

/-- `apply_emotion` lines 133-139: toggle the previously active expression
off first, but only when one is recorded and its name is still a key of the
cache. -/
def toggleOffOld (host : Host) (st : ClientState) : Outcome :=
  match st.last_active_hotkey with
  | none => { state := st, sends := [], error := none }
  | some old =>
    if old != "" && (dictGet st.hotkey_cache old).isSome then
      trigger_hotkey host st old none none
    else { state := st, sends := [], error := none }

/-- `apply_emotion` lines 133-143 after the id has been resolved: no-op when
the same hotkey is already active, else off-toggle the old one and trigger
the new one, recording it as active only when both sends succeeded. -/
def applyResolved (host : Host) (st1 : ClientState) (s1 : List NetSend)
    (hotkey_name hotkey_id emotion : String) : Outcome :=
  if st1.last_active_hotkey = some hotkey_name then
    { state := st1, sends := s1, error := none }
  else
    match toggleOffOld host st1 with
    | ⟨st2, s2, some e⟩ => { state := st2, sends := s1 ++ s2, error := some e }
    | ⟨st2, s2, none⟩ =>
      match trigger_hotkey host st2 hotkey_name (some hotkey_id) (some emotion) with
      | ⟨st3, s3, some e⟩ => { state := st3, sends := s1 ++ s2 ++ s3, error := some e }
      | ⟨st3, s3, none⟩ =>
        { state := { st3 with last_active_hotkey := some hotkey_name }
          sends := s1 ++ s2 ++ s3
          error := none }

/-- `apply_emotion` (lines 112-143): raise when not connected; no-op when the
emotion has no hotkey mapping; resolve the mapped name with at most one
refresh; no-op when still unresolved; else run the toggle discipline. -/
def apply_emotion (host : Host) (st : ClientState) (emotion : String) : Outcome :=
  if st.ws then
    match truthy (dictGet st.emotion_hotkeys (lowerStr emotion)) with
    | none => { state := st, sends := [], error := none }
    | some hotkey_name =>
      match resolveOnce host st hotkey_name with
      | (st1, s1, none) => { state := st1, sends := s1, error := none }
      | (st1, s1, some hotkey_id) => applyResolved host st1 s1 hotkey_name hotkey_id emotion
  else { state := st, sends := [], error := some VTSError.notConnected }

/-- `connect` (lines 26-79): open the transport; when no token is held send a
token request (a `none` response models the 30 s timeout, which re-raises;
an empty token is only warned about); when a token is held authenticate and
raise unless `data.authenticated` is true; finally load the hotkey catalog. -/
def connect (host : Host) (st0 : ClientState) (tokenResp : Option TokenResponse)
    (authResp : AuthResponse) : Outcome :=
  let st := { st0 with ws := true }
  match (match truthy st.auth_token with
         | some _ => some (st, ([] : List NetSend))
         | none =>
           match tokenResp with
           | none => none
           | some tr =>
             if tr.authenticationToken = "" then some (st, [NetSend.tokenReq])
             else some ({ st with auth_token := some tr.authenticationToken },
                        [NetSend.tokenReq])) with
  | none => { state := st, sends := [NetSend.tokenReq], error := some VTSError.authTimeout }
  | some (st1, s1) =>
    match truthy st1.auth_token with
    | some tok =>
      if authResp.authenticated then
        let lh := load_hotkeys host st1
        { state := lh.state, sends := s1 ++ [NetSend.authReq tok] ++ lh.sends, error := none }
      else
        { state := st1, sends := s1 ++ [NetSend.authReq tok], error := some VTSError.authFailed }
    | none =>
      let lh := load_hotkeys host st1
      { state := lh.state, sends := s1 ++ lh.sends, error := none }

/-- `close` (lines 176-180): drop the connection handle if one is held;
nothing else is touched. -/
def close (st : ClientState) : ClientState :=
  if st.ws then { st with ws := false } else st

/-- `DEFAULT_HOTKEYS` (src/avatar_chatbot.py lines 15-22). -/
def DEFAULT_HOTKEYS : List (String × String) :=
  [("excited", "Happy"), ("happy", "Happy"), ("neutral", "Neutral"),
   ("concerned", "Concern"), ("sad", "Sad"), ("angry", "Angry")]

/-- The governing-emotion choice of `run_avatar_chat`
(src/avatar_chatbot.py lines 62-68): prefer the user's classification when
`abs(user_score) >= 0.35`, else the bot reply's. -/
def choose_emotion_avatar (user_emotion : String) (user_score : ℚ)
    (bot_emotion : String) (bot_score : ℚ) : String × ℚ :=
  if |user_score| ≥ 35/100 then (user_emotion, user_score) else (bot_emotion, bot_score)

/-- The governing-emotion choice of `handle_user_message`
(src/web_live2d_chatbot.py lines 90-98): threshold `0.2`. -/
def choose_emotion_web (user_emotion : String) (user_score : ℚ)
    (bot_emotion : String) (bot_score : ℚ) : String × ℚ :=
  if |user_score| ≥ 2/10 then (user_emotion, user_score) else (bot_emotion, bot_score)

/-- `run_avatar_chat` lines 41-48: `avatar_ready` is set to `True` exactly
when `connect()` returned without raising. -/
def avatar_ready_after (o : Outcome) : Bool :=
  o.error.isNone

/-- `KEYWORD_MAP` (src/emotion_classifier.py lines 8-32), in Python dict
insertion order (the classify loop iterates it in this order). -/
def KEYWORD_MAP : List (String × String) :=
  [("angry", "angry"), ("mad", "angry"), ("furious", "angry"), ("rage", "angry"),
   ("irritated", "angry"), ("annoyed", "angry"), ("upset", "sad"), ("sad", "sad"),
   ("depressed", "sad"), ("down", "sad"), ("unhappy", "sad"), ("happy", "happy"),
   ("glad", "happy"), ("pleased", "happy"), ("excited", "excited"),
   ("thrilled", "excited"), ("concern", "concerned"), ("worried", "concerned"),
   ("anxious", "concerned"), ("nervous", "concerned"), ("uneasy", "concerned"),
   ("neutral", "neutral"), ("calm", "neutral")]

/-- The fixed codomain of the classifier (the six emotion labels). -/
def emotionLabels : List String :=
  ["excited", "happy", "neutral", "concerned", "sad", "angry"]

/-- The threshold chain of `EmotionClassifier.classify`
(src/emotion_classifier.py lines 62-76). -/
def thresholdLabel (compound : ℚ) : String :=
  if compound ≥ 7/10 then "excited"
  else if compound ≥ 45/100 then "happy"
  else if compound ≤ -(65/100) then "angry"
  else if compound ≤ -(35/100) then "sad"
  else if -(5/100) ≤ compound ∧ compound ≤ 5/100 then "neutral"
  else "concerned"

/-- `EmotionClassifier.classify` (lines 52-78).  The external VADER
analyzer is the oracle `analyzer`, giving the `compound` polarity score of a
text (`text or ""` equals `text` for strings, so the oracle is applied to
the text itself).  The keyword loop returns the first map entry whose key
occurs in the lowered text; otherwise the threshold chain picks the label.
The returned score is always the compound score. -/
def classify (analyzer : String → ℚ) (text : String) : String × ℚ :=
  match KEYWORD_MAP.find? (fun p => strContains (lowerStr text) p.1) with
  | some p => (p.2, analyzer text)
  | none => (thresholdLabel (analyzer text), analyzer text)

/-! ### Concrete fixtures used by witnesses and counterexamples -/

/-- A trigger response the host answers with on success. -/
def okTrig : TrigResponse :=
  { messageType := "HotkeyTriggerResponse", hasErrorID := false, data := "" }

/-- A hotkey-list response carrying the five expression hotkeys the default
configuration refers to. -/
def okList : ListResponse :=
  { messageType := "HotkeysInCurrentModelResponse", hasErrorID := false,
    availableHotkeys :=
      [ { name := "Happy", hotkeyID := "h1", type := "ToggleExpression" },
        { name := "Neutral", hotkeyID := "h2", type := "ToggleExpression" },
        { name := "Concern", hotkeyID := "h3", type := "ToggleExpression" },
        { name := "Sad", hotkeyID := "h4", type := "ToggleExpression" },
        { name := "Angry", hotkeyID := "h5", type := "ToggleExpression" } ] }

/-- A host that accepts every trigger and serves `okList` as its catalog. -/
def demoHost : Host := { listResp := okList, trigResp := fun _ => okTrig }

/-- A connected session with the default hotkey configuration and a warm
cache, nothing active yet. -/
def demoState : ClientState :=
  { ws := true, auth_token := some "tok", emotion_hotkeys := DEFAULT_HOTKEYS,
    hotkey_cache := [("Happy", "h1"), ("Neutral", "h2"), ("Concern", "h3"),
                     ("Sad", "h4"), ("Angry", "h5")],
    last_active_hotkey := none }

/-! ### Helper lemmas -/

theorem truthy_some {o : Option String} {v : String} (h : truthy o = some v) :
    o = some v ∧ v ≠ "" := by
  cases o with
  | none => exact absurd h (by simp [truthy])
  | some s =>
    by_cases hs : s = ""
    · simp [truthy, hs] at h
    · simp only [truthy, hs, if_false, if_neg hs, Option.some.injEq] at h
      subst h
      exact ⟨rfl, hs⟩

theorem truthy_some_of_ne {s : String} (h : s ≠ "") : truthy (some s) = some s := by
  simp [truthy, h]

theorem load_hotkeys_shape (host : Host) (st : ClientState) :
    (load_hotkeys host st).state.ws = st.ws ∧
    (load_hotkeys host st).state.auth_token = st.auth_token ∧
    (load_hotkeys host st).state.emotion_hotkeys = st.emotion_hotkeys ∧
    (load_hotkeys host st).state.last_active_hotkey = st.last_active_hotkey ∧
    (load_hotkeys host st).sends = [NetSend.hotkeyListReq] ∧
    (load_hotkeys host st).error = none := by
  unfold load_hotkeys
  split <;> simp

/-! ### Claims -/

/-- Claim C1: toggle idempotence.  On a connected session where the emotion
label `X` maps to a hotkey name `name` cached with id `id`, no expression is
active yet, and the host accepts the trigger, the first `apply_emotion X`
issues exactly one trigger request (one send/receive pair) and sets the
active trigger name to `name`; the second `apply_emotion X` issues zero
network sends, raises nothing, and leaves the whole session state
unchanged. -/
theorem apply_emotion_toggle_idempotent (host : Host) (st : ClientState)
    (X name id : String)
    (hws : st.ws = true) (hX : X ≠ "")
    (hmap : truthy (dictGet st.emotion_hotkeys (lowerStr X)) = some name)
    (hcache : truthy (dictGet st.hotkey_cache name) = some id)
    (hactive : st.last_active_hotkey = none)
    (hok : isErrorResponse (host.trigResp id) = false) :
    apply_emotion host st X =
      { state := { st with last_active_hotkey := some name }
        sends := [NetSend.triggerReq ("trigger_" ++ X) id]
        error := none } ∧
    apply_emotion host { st with last_active_hotkey := some name } X =
      { state := { st with last_active_hotkey := some name }
        sends := []
        error := none } := by
  obtain ⟨-, hid⟩ := truthy_some hcache
  refine ⟨?_, ?_⟩
  · simp [apply_emotion, resolveOnce, applyResolved, toggleOffOld, trigger_hotkey,
      hws, hmap, hcache, hactive, hok, truthy_some_of_ne hid, truthy_some_of_ne hX]
  · simp [apply_emotion, resolveOnce, applyResolved, hws, hmap, hcache]

/-- Witness for C1 at a concrete input: the default configuration with a warm
cache, emotion `"happy"` mapped to hotkey `"Happy"` with id `"h1"`. -/
theorem apply_emotion_toggle_idempotent_witness :
    apply_emotion demoHost demoState "happy" =
      { state := { demoState with last_active_hotkey := some "Happy" }
        sends := [NetSend.triggerReq ("trigger_" ++ "happy") "h1"]
        error := none } ∧
    apply_emotion demoHost { demoState with last_active_hotkey := some "Happy" } "happy" =
      { state := { demoState with last_active_hotkey := some "Happy" }
        sends := []
        error := none } :=
  apply_emotion_toggle_idempotent demoHost demoState "happy" "Happy" "h1"
    (by decide) (by decide) (by decide) (by decide) rfl (by decide)

theorem truthy_none : truthy none = none := rfl

/-- Claim C2 (amended): toggle transition ordering.  The code issues the
off-then-on pair only when the two labels' *mapped hotkey names* differ (the
original claim's hypothesis `A ≠ B` on the labels alone is refuted by the
counterexample below).  With `A`'s name `nameA` and `B`'s name `nameB`
distinct, both cached, nothing active initially and an accepting host,
`apply_emotion A` then `apply_emotion B` makes the second call send the
off-trigger for `nameA` followed by the on-trigger for `nameB`, in that
order, and record `nameB` as active. -/
theorem apply_emotion_toggle_transition (host : Host) (st : ClientState)
    (A B nameA nameB idA idB : String)
    (hws : st.ws = true) (hA : A ≠ "") (hB : B ≠ "")
    (hmapA : truthy (dictGet st.emotion_hotkeys (lowerStr A)) = some nameA)
    (hmapB : truthy (dictGet st.emotion_hotkeys (lowerStr B)) = some nameB)
    (hnames : nameA ≠ nameB)
    (hcA : truthy (dictGet st.hotkey_cache nameA) = some idA)
    (hcB : truthy (dictGet st.hotkey_cache nameB) = some idB)
    (hactive : st.last_active_hotkey = none)
    (hokA : isErrorResponse (host.trigResp idA) = false)
    (hokB : isErrorResponse (host.trigResp idB) = false) :
    apply_emotion host st A =
      { state := { st with last_active_hotkey := some nameA }
        sends := [NetSend.triggerReq ("trigger_" ++ A) idA]
        error := none } ∧
    apply_emotion host { st with last_active_hotkey := some nameA } B =
      { state := { st with last_active_hotkey := some nameB }
        sends := [NetSend.triggerReq ("trigger_" ++ nameA) idA,
                  NetSend.triggerReq ("trigger_" ++ B) idB]
        error := none } := by
  obtain ⟨hgA, hidA⟩ := truthy_some hcA
  obtain ⟨hgB, hidB⟩ := truthy_some hcB
  refine ⟨?_, ?_⟩
  · simp [apply_emotion, resolveOnce, applyResolved, toggleOffOld, trigger_hotkey,
      hws, hmapA, hcA, hactive, hokA, truthy_some_of_ne hidA, truthy_some_of_ne hA]
  · simp [apply_emotion, resolveOnce, applyResolved, toggleOffOld, trigger_hotkey,
      hws, hmapB, hcA, hcB, hnames, hokA, hokB, hgA, truthy_none,
      truthy_some_of_ne hidA, truthy_some_of_ne hidB, truthy_some_of_ne hB,
      truthy_some hmapA |>.2]

/-- Counterexample to C2 as stated: with the default configuration the
distinct labels `"excited"` and `"happy"` both map to the *same* hotkey name
`"Happy"`, both resolvable from the cache; the second call is then the
toggle-discipline no-op — zero sends — instead of the claimed off-trigger
for A's name followed by an on-trigger for B's name. -/
theorem apply_emotion_toggle_transition_counterexample :
    "excited" ≠ "happy" ∧
    truthy (dictGet demoState.emotion_hotkeys (lowerStr "excited")) = some "Happy" ∧
    truthy (dictGet demoState.emotion_hotkeys (lowerStr "happy")) = some "Happy" ∧
    truthy (dictGet demoState.hotkey_cache "Happy") = some "h1" ∧
    (apply_emotion demoHost demoState "excited").error = none ∧
    (apply_emotion demoHost (apply_emotion demoHost demoState "excited").state "happy").sends
      = [] := by
  decide

/-- Witness for the amended C2 at a concrete input: `"happy"` (hotkey
`"Happy"`/`"h1"`) then `"sad"` (hotkey `"Sad"`/`"h4"`). -/
theorem apply_emotion_toggle_transition_witness :
    apply_emotion demoHost demoState "happy" =
      { state := { demoState with last_active_hotkey := some "Happy" }
        sends := [NetSend.triggerReq ("trigger_" ++ "happy") "h1"]
        error := none } ∧
    apply_emotion demoHost { demoState with last_active_hotkey := some "Happy" } "sad" =
      { state := { demoState with last_active_hotkey := some "Sad" }
        sends := [NetSend.triggerReq ("trigger_" ++ "Happy") "h1",
                  NetSend.triggerReq ("trigger_" ++ "sad") "h4"]
        error := none } :=
  apply_emotion_toggle_transition demoHost demoState "happy" "sad" "Happy" "Sad" "h1" "h4"
    (by decide) (by decide) (by decide) (by decide) (by decide) (by decide)
    (by decide) (by decide) rfl (by decide) (by decide)

/-- Counterexample to C3 as stated: after triggering `"happy"` on the demo
session, `close` drops the connection handle but leaves
`_last_active_hotkey` at `some "Happy"` — it is *not* `None` again after
`close()` (a fresh session does start at `None`, as the first conjunct
records). -/
theorem close_active_counterexample :
    (initClient (some "tok") (some DEFAULT_HOTKEYS)).last_active_hotkey = none ∧
    (close (apply_emotion demoHost demoState "happy").state).ws = false ∧
    (close (apply_emotion demoHost demoState "happy").state).last_active_hotkey
      = some "Happy" ∧
    (close (apply_emotion demoHost demoState "happy").state).last_active_hotkey ≠ none := by
  decide

/-- Claim C3 (amended): `activeTriggerName` is `None` in a freshly
constructed session, and `close()` drops only the connection handle: it
leaves `_last_active_hotkey` (and everything else) unchanged, rather than
resetting it to `None`. -/
theorem close_lifecycle (tok : Option String)
    (map : Option (List (String × String))) (st : ClientState) :
    (initClient tok map).last_active_hotkey = none ∧
    (close st).ws = false ∧
    (close st).last_active_hotkey = st.last_active_hotkey ∧
    (close st).auth_token = st.auth_token ∧
    (close st).hotkey_cache = st.hotkey_cache := by
  refine ⟨rfl, ?_⟩
  unfold close
  split <;> simp_all

/-- Witness for the amended C3 at a concrete session. -/
theorem close_lifecycle_witness :
    (initClient (some "t") (some DEFAULT_HOTKEYS)).last_active_hotkey = none ∧
    (close demoState).ws = false ∧
    (close demoState).last_active_hotkey = demoState.last_active_hotkey ∧
    (close demoState).auth_token = demoState.auth_token ∧
    (close demoState).hotkey_cache = demoState.hotkey_cache :=
  close_lifecycle (some "t") (some DEFAULT_HOTKEYS) demoState

/-- Claim C4: single-refresh resolution.  When the mapped hotkey name is not
in the cache, `apply_emotion` performs exactly one catalog refresh (the only
network send is the one hotkey-list request), re-checks, and — the name
still being absent — returns a not-found no-op: no trigger sends, no error,
and `activeTriggerName` unchanged. -/
theorem apply_emotion_single_refresh (host : Host) (st : ClientState) (X name : String)
    (hws : st.ws = true)
    (hmap : truthy (dictGet st.emotion_hotkeys (lowerStr X)) = some name)
    (hmiss : truthy (dictGet st.hotkey_cache name) = none)
    (hstill : truthy (dictGet (load_hotkeys host st).state.hotkey_cache name) = none) :
    apply_emotion host st X =
      { state := (load_hotkeys host st).state
        sends := [NetSend.hotkeyListReq]
        error := none } ∧
    (load_hotkeys host st).state.last_active_hotkey = st.last_active_hotkey := by
  refine ⟨?_, (load_hotkeys_shape host st).2.2.2.1⟩
  simp [apply_emotion, resolveOnce, hws, hmap, hmiss, hstill,
    (load_hotkeys_shape host st).2.2.2.2.1]

/-- A connected session whose configuration also maps the label `"mystery"`
to the hotkey name `"Ghost"`, which the host's catalog does not offer; the
cache starts cold. -/
def missState : ClientState :=
  { ws := true, auth_token := some "tok",
    emotion_hotkeys := ("mystery", "Ghost") :: DEFAULT_HOTKEYS,
    hotkey_cache := [], last_active_hotkey := none }

/-- Witness for C4 at a concrete input: resolving `"Ghost"` misses the cold
cache, refreshes once against `okList` (which lacks it), and gives up. -/
theorem apply_emotion_single_refresh_witness :
    apply_emotion demoHost missState "mystery" =
      { state := (load_hotkeys demoHost missState).state
        sends := [NetSend.hotkeyListReq]
        error := none } ∧
    (load_hotkeys demoHost missState).state.last_active_hotkey
      = missState.last_active_hotkey :=
  apply_emotion_single_refresh demoHost missState "mystery" "Ghost"
    (by decide) (by decide) (by decide) (by decide)

/-- Claim C5: threshold rule for the governing emotion.  In the voice/avatar
flow (threshold `0.35`) and the web flow (threshold `0.2`), the turn's
governing (label, score) pair is the user's exactly when
`|user_score| >= threshold` and the bot reply's otherwise. -/
theorem threshold_rule (user_emotion bot_emotion : String) (user_score bot_score : ℚ) :
    (|user_score| ≥ 35/100 →
      choose_emotion_avatar user_emotion user_score bot_emotion bot_score
        = (user_emotion, user_score)) ∧
    (¬ |user_score| ≥ 35/100 →
      choose_emotion_avatar user_emotion user_score bot_emotion bot_score
        = (bot_emotion, bot_score)) ∧
    (|user_score| ≥ 2/10 →
      choose_emotion_web user_emotion user_score bot_emotion bot_score
        = (user_emotion, user_score)) ∧
    (¬ |user_score| ≥ 2/10 →
      choose_emotion_web user_emotion user_score bot_emotion bot_score
        = (bot_emotion, bot_score)) := by
  refine ⟨fun h => ?_, fun h => ?_, fun h => ?_, fun h => ?_⟩ <;>
    simp [choose_emotion_avatar, choose_emotion_web, h]

/-- Witness for C5 at concrete scores: `1` clears both thresholds, `0`
clears neither. -/
theorem threshold_rule_witness :
    choose_emotion_avatar "angry" 1 "happy" 0 = ("angry", 1) ∧
    choose_emotion_avatar "angry" 0 "happy" (1/2) = ("happy", 1/2) ∧
    choose_emotion_web "angry" 1 "happy" 0 = ("angry", 1) ∧
    choose_emotion_web "angry" 0 "happy" (1/2) = ("happy", 1/2) :=
  ⟨(threshold_rule "angry" "happy" 1 0).1 (by norm_num),
   (threshold_rule "angry" "happy" 0 (1/2)).2.1 (by norm_num),
   (threshold_rule "angry" "happy" 1 0).2.2.1 (by norm_num),
   (threshold_rule "angry" "happy" 0 (1/2)).2.2.2 (by norm_num)⟩

/-- Counterexample to C6 as stated: on a freshly constructed (never
connected) session, `apply_emotion` raises the not-connected error even for
the unmapped label `"bored"` — so an unmapped emotion is not unconditionally
error-free. -/
theorem apply_emotion_unmapped_counterexample :
    dictGet (initClient none (some DEFAULT_HOTKEYS)).emotion_hotkeys (lowerStr "bored")
      = none ∧
    (apply_emotion demoHost (initClient none (some DEFAULT_HOTKEYS)) "bored").error
      = some VTSError.notConnected := by
  decide

/-- Claim C6 (amended): on a *connected* session, `apply_emotion` for a
label whose lowercase form is absent from the configured emotion-to-hotkey
mapping issues zero network sends, raises no error, and leaves the entire
session state (including `activeTriggerName` and the hotkey cache)
unchanged; on a never-connected session `apply_emotion` raises the
not-connected error for every label, mapped or not. -/
theorem apply_emotion_unmapped_noop (host : Host) (st : ClientState) (X : String)
    (hws : st.ws = true)
    (hmap : truthy (dictGet st.emotion_hotkeys (lowerStr X)) = none) :
    apply_emotion host st X = { state := st, sends := [], error := none } := by
  simp [apply_emotion, hws, hmap]

/-- Witness for the amended C6 at a concrete input: `"bored"` is unmapped in
the default configuration. -/
theorem apply_emotion_unmapped_noop_witness :
    apply_emotion demoHost demoState "bored"
      = { state := demoState, sends := [], error := none } :=
  apply_emotion_unmapped_noop demoHost demoState "bored" (by decide) (by decide)

/-- A hotkey-list response that carries an `errorID` field but does not have
message type `"APIError"`. -/
def errorIDList : ListResponse :=
  { messageType := "HotkeysInCurrentModelResponse", hasErrorID := true,
    availableHotkeys := [ { name := "Happy", hotkeyID := "h1", type := "ToggleExpression" } ] }

/-- A host whose hotkey-list response carries an `errorID` field. -/
def errorIDHost : Host := { listResp := errorIDList, trigResp := fun _ => okTrig }

/-- A connected session with the default configuration and a cold cache. -/
def freshConnState : ClientState :=
  { ws := true, auth_token := some "tok", emotion_hotkeys := DEFAULT_HOTKEYS,
    hotkey_cache := [], last_active_hotkey := none }

/-- A host that rejects every trigger with an `APIError` carrying payload
`"denied"`. -/
def rejectHost : Host :=
  { listResp := okList,
    trigResp := fun _ => { messageType := "APIError", hasErrorID := true, data := "denied" } }

/-- Counterexample to C7 as stated: the `errorID`-presence rule does *not*
apply to every request.  A hotkey-list response carrying an `errorID` field
(but a non-`"APIError"` message type) raises nothing — `_load_hotkeys` only
tests the message type — and its entries are even cached. -/
theorem trigger_rejection_counterexample :
    errorIDHost.listResp.hasErrorID = true ∧
    errorIDHost.listResp.messageType ≠ "APIError" ∧
    (load_hotkeys errorIDHost freshConnState).error = none ∧
    (load_hotkeys errorIDHost freshConnState).state.hotkey_cache = [("Happy", "h1")] := by
  decide

/-- Claim C7 (amended): for trigger requests the rule holds: a response with
message type `"APIError"` or an `errorID` field makes `_trigger_hotkey`
raise an error carrying the host's payload, leaving the connection handle,
hotkey cache and `activeTriggerName` (the whole state) unchanged — the
connection is not torn down.  The `errorID`-presence half of the rule is
specific to trigger responses: `_load_hotkeys` checks only the message type
and never raises. -/
theorem trigger_rejection_no_teardown (host : Host) (st : ClientState)
    (name id : String) (emotion : Option String)
    (hid : id ≠ "")
    (herr : isErrorResponse (host.trigResp id) = true) :
    trigger_hotkey host st name (some id) emotion =
      { state := st
        sends := [NetSend.triggerReq ("trigger_" ++ (truthy emotion).getD name) id]
        error := some (VTSError.rejected name (host.trigResp id).data) } ∧
    (load_hotkeys host st).error = none := by
  refine ⟨?_, (load_hotkeys_shape host st).2.2.2.2.2⟩
  simp [trigger_hotkey, truthy_some_of_ne hid, herr]

/-- Witness for the amended C7 at a concrete input: `rejectHost` rejects the
trigger for `"Happy"`/`"h1"`; the session state is returned unchanged. -/
theorem trigger_rejection_no_teardown_witness :
    trigger_hotkey rejectHost demoState "Happy" (some "h1") (some "happy") =
      { state := demoState
        sends := [NetSend.triggerReq ("trigger_" ++ (truthy (some "happy")).getD "Happy") "h1"]
        error := some (VTSError.rejected "Happy" (rejectHost.trigResp "h1").data) } ∧
    (load_hotkeys rejectHost demoState).error = none :=
  trigger_rejection_no_teardown rejectHost demoState "Happy" "h1" (some "happy")
    (by decide) (by decide)

/-- Claim C8: fail-soft catalog load on connect.  Holding a token, with the
host authenticating successfully but answering the catalog request with an
`"APIError"`, `connect` still completes without error: the error is not
propagated, the catalog refresh was attempted (the hotkey-list request is
the last send after the authentication request), and the cache — empty
before the call — stays empty. -/
theorem connect_failsoft_catalog (host : Host) (st0 : ClientState) (tok : String)
    (tokenResp : Option TokenResponse) (authResp : AuthResponse)
    (hcache : st0.hotkey_cache = [])
    (htok : truthy st0.auth_token = some tok)
    (hauth : authResp.authenticated = true)
    (herr : host.listResp.messageType = "APIError") :
    connect host st0 tokenResp authResp =
      { state := { st0 with ws := true }
        sends := [NetSend.authReq tok, NetSend.hotkeyListReq]
        error := none } ∧
    (connect host st0 tokenResp authResp).state.hotkey_cache = [] := by
  have h : connect host st0 tokenResp authResp =
      { state := { st0 with ws := true }
        sends := [NetSend.authReq tok, NetSend.hotkeyListReq]
        error := none } := by
    simp [connect, load_hotkeys, htok, hauth, herr]
  exact ⟨h, by rw [h]; exact hcache⟩

/-- A host whose catalog request fails with an `APIError`. -/
def listErrHost : Host :=
  { listResp := { messageType := "APIError", hasErrorID := true, availableHotkeys := [] },
    trigResp := fun _ => okTrig }

/-- Witness for C8 at a concrete input: a fresh client holding token
`"tok"`, against a host that accepts authentication but fails the catalog
request. -/
theorem connect_failsoft_catalog_witness :
    connect listErrHost (initClient (some "tok") (some DEFAULT_HOTKEYS)) none
        { authenticated := true } =
      { state := { initClient (some "tok") (some DEFAULT_HOTKEYS) with ws := true }
        sends := [NetSend.authReq "tok", NetSend.hotkeyListReq]
        error := none } ∧
    (connect listErrHost (initClient (some "tok") (some DEFAULT_HOTKEYS)) none
        { authenticated := true }).state.hotkey_cache = [] :=
  connect_failsoft_catalog listErrHost (initClient (some "tok") (some DEFAULT_HOTKEYS))
    "tok" none { authenticated := true } rfl (by decide) rfl rfl

/-- Claim C10: when the token-request response arrives in time but carries
no `authenticationToken`, `connect` neither raises nor sends an
authentication request: after the token request it goes straight to the
hotkey-list request over the unauthenticated connection, completes without
error (so the caller marks the avatar session ready), holds a connection
handle, and still has no token. -/
theorem connect_no_token_skips_auth (host : Host) (st0 : ClientState)
    (tr : TokenResponse) (authResp : AuthResponse)
    (hnotok : truthy st0.auth_token = none)
    (hempty : tr.authenticationToken = "") :
    connect host st0 (some tr) authResp =
      { state := (load_hotkeys host { st0 with ws := true }).state
        sends := [NetSend.tokenReq, NetSend.hotkeyListReq]
        error := none } ∧
    avatar_ready_after (connect host st0 (some tr) authResp) = true ∧
    (connect host st0 (some tr) authResp).state.ws = true ∧
    (connect host st0 (some tr) authResp).state.auth_token = st0.auth_token := by
  have h : connect host st0 (some tr) authResp =
      { state := (load_hotkeys host { st0 with ws := true }).state
        sends := [NetSend.tokenReq, NetSend.hotkeyListReq]
        error := none } := by
    simp [connect, hnotok, hempty,
      (load_hotkeys_shape host { st0 with ws := true }).2.2.2.2.1]
  refine ⟨h, ?_, ?_, ?_⟩ <;> rw [h]
  · rfl
  · exact (load_hotkeys_shape host { st0 with ws := true }).1
  · exact (load_hotkeys_shape host { st0 with ws := true }).2.1

/-- Witness for C10 at a concrete input: a tokenless fresh client whose
token request is answered without a token. -/
theorem connect_no_token_skips_auth_witness :
    connect demoHost (initClient none (some DEFAULT_HOTKEYS))
        (some { authenticationToken := "" }) { authenticated := true } =
      { state := (load_hotkeys demoHost
          { initClient none (some DEFAULT_HOTKEYS) with ws := true }).state
        sends := [NetSend.tokenReq, NetSend.hotkeyListReq]
        error := none } ∧
    avatar_ready_after (connect demoHost (initClient none (some DEFAULT_HOTKEYS))
        (some { authenticationToken := "" }) { authenticated := true }) = true ∧
    (connect demoHost (initClient none (some DEFAULT_HOTKEYS))
        (some { authenticationToken := "" }) { authenticated := true }).state.ws = true ∧
    (connect demoHost (initClient none (some DEFAULT_HOTKEYS))
        (some { authenticationToken := "" }) { authenticated := true }).state.auth_token
      = (initClient none (some DEFAULT_HOTKEYS)).auth_token :=
  connect_no_token_skips_auth demoHost (initClient none (some DEFAULT_HOTKEYS))
    { authenticationToken := "" } { authenticated := true } rfl rfl

theorem thresholdLabel_mem (q : ℚ) : thresholdLabel q ∈ emotionLabels := by
  unfold thresholdLabel emotionLabels
  split_ifs <;> simp

theorem classify_snd (analyzer : String → ℚ) (t : String) :
    (classify analyzer t).2 = analyzer t := by
  unfold classify
  cases hf : KEYWORD_MAP.find? (fun p => strContains (lowerStr t) p.1) <;> simp

/-- Claim C9: classifier totality and fixed codomain.  For every analyzer
oracle (the external VADER `polarity_scores`, assumed to give a compound
score in `[-1, 1]` and `0.0` for the empty string, as it documents) and
every input string, `classify` returns exactly one label from the fixed
six-label set together with the compound score, hence a score in `[-1, 1]`;
it is a pure function (hence deterministic and side-effect-free), and on the
empty string it returns `("neutral", 0)`. -/
theorem classify_total (analyzer : String → ℚ) (t : String)
    (h1 : -1 ≤ analyzer t) (h2 : analyzer t ≤ 1) (h0 : analyzer "" = 0) :
    (classify analyzer t).1 ∈ emotionLabels ∧
    -1 ≤ (classify analyzer t).2 ∧ (classify analyzer t).2 ≤ 1 ∧
    classify analyzer "" = ("neutral", 0) := by
  have hmem : ∀ p ∈ KEYWORD_MAP, p.2 ∈ emotionLabels := by decide
  have hempty : classify analyzer "" = ("neutral", 0) := by
    have hfind : KEYWORD_MAP.find? (fun p => strContains (lowerStr "") p.1) = none := by
      decide
    have hlab : thresholdLabel 0 = "neutral" := by norm_num [thresholdLabel]
    simp [classify, hfind, h0, hlab]
  refine ⟨?_, ?_, ?_, hempty⟩
  · unfold classify
    cases hf : KEYWORD_MAP.find? (fun p => strContains (lowerStr t) p.1) with
    | none => simpa using thresholdLabel_mem (analyzer t)
    | some p => simpa using hmem p (List.mem_of_find?_eq_some hf)
  · rw [classify_snd]; exact h1
  · rw [classify_snd]; exact h2

/-- The analyzer oracle returning compound score `0` for every text. -/
def zeroAnalyzer : String → ℚ := fun _ => 0

/-- Witness for C9 at a concrete input: the all-zero analyzer on the
keyword-free text `"how are you"`. -/
theorem classify_total_witness :
    (classify zeroAnalyzer "how are you").1 ∈ emotionLabels ∧
    -1 ≤ (classify zeroAnalyzer "how are you").2 ∧
    (classify zeroAnalyzer "how are you").2 ≤ 1 ∧
    classify zeroAnalyzer "" = ("neutral", 0) :=
  classify_total zeroAnalyzer "how are you" (by norm_num [zeroAnalyzer])
    (by norm_num [zeroAnalyzer]) rfl

end AvatarSpec
